import Mathlib

/-!
Shallow embedding of the cyro request-dispatch pipeline.

The definitions below are translated from the repository sources:
* `ResponseHandler` from `src/handler/res/resHandler.js`,
* `MiddlewareHandler.applyMiddlewares` from `src/handler/middleware/middlewareHandler.js`,
* `RoutesHandler` from `src/handler/routes/routesHandler.js`,
* `RequestHandler` from `src/handler/req/reqHandler.js`,
* `System` from `src/controls/system.js` (the variant whose constructor
  allocates `this.res = new ResponseHandler()` once per process).

JavaScript platform builtins used by that code (`Headers`, `new URL`,
`URLSearchParams`, `Object.fromEntries`, property assignment on plain
objects) are modelled explicitly below, restricted to the behaviour the
pipeline exercises (origin-form http URLs, ASCII strings).
-/

namespace Cyro

/-- JavaScript property assignment `obj[k] = v` on a plain object:
overwrite an existing key in place, otherwise append. -/
def objSet (o : List (String × String)) (k v : String) : List (String × String) :=
  if o.any (fun p => p.1 == k) then
    o.map (fun p => if p.1 = k then (k, v) else p)
  else
    o ++ [(k, v)]

/-- `Object.fromEntries` (equivalently a sequence of property assignments):
later entries for the same key overwrite earlier ones. -/
def fromEntries (es : List (String × String)) : List (String × String) :=
  es.foldl (fun o kv => objSet o kv.1 kv.2) []

/-- Whether a character is a hexadecimal digit. -/
def isHexDigit (c : Char) : Bool :=
  c.isDigit || (97 ≤ c.toNat && c.toNat ≤ 102) || (65 ≤ c.toNat && c.toNat ≤ 70)

/-- Numeric value of a hexadecimal digit character. -/
def hexVal (c : Char) : Nat :=
  if c.isDigit then c.toNat - 48
  else if 97 ≤ c.toNat ∧ c.toNat ≤ 102 then c.toNat - 87
  else c.toNat - 55

/-- Decoding applied by `URLSearchParams` to keys and values:
`+` becomes a space, `%XY` with two hex digits becomes the byte `0xXY`;
malformed escapes are kept verbatim. -/
def percentDecode : List Char → List Char
  | '%' :: h1 :: h2 :: rest =>
    if isHexDigit h1 ∧ isHexDigit h2 then
      Char.ofNat (16 * hexVal h1 + hexVal h2) :: percentDecode rest
    else
      '%' :: percentDecode (h1 :: h2 :: rest)
  | '+' :: rest => ' ' :: percentDecode rest
  | c :: rest => c :: percentDecode rest
  | [] => []

/-- Model of JS `String.prototype.toUpperCase` for ASCII strings. -/
def strToUpper (s : String) : String :=
  String.mk (s.toList.map Char.toUpper)

/-- Model of JS `String.prototype.toLowerCase` for ASCII strings. -/
def strToLower (s : String) : String :=
  String.mk (s.toList.map Char.toLower)

/-- Model of JS `String.prototype.startsWith`. -/
def strStartsWith (s pre : String) : Bool :=
  pre.toList.isPrefixOf s.toList

/-- Model of JS `String.prototype.endsWith`. -/
def strEndsWith (s suf : String) : Bool :=
  suf.toList.isSuffixOf s.toList

/-- Model of JS `String.prototype.trim`: strip whitespace at both ends. -/
def strTrim (s : String) : String :=
  String.mk (((s.toList.dropWhile Char.isWhitespace).reverse.dropWhile Char.isWhitespace).reverse)

/-- Split a character list at every occurrence of a separator. -/
def splitChar (sep : Char) : List Char → List (List Char)
  | [] => [[]]
  | c :: rest =>
    match splitChar sep rest with
    | g :: gs => if c = sep then [] :: g :: gs else (c :: g) :: gs
    | [] => [[c]]

/-- One `key=value` segment of a query string, as produced by
`URLSearchParams` iteration: the key runs to the first `=`, the value is
the remainder (empty when there is no `=`); both are decoded. -/
def parseQuerySegment (seg : List Char) : String × String :=
  let k := seg.takeWhile (fun c => c != '=')
  let rest := seg.drop k.length
  let v := rest.drop 1
  (String.mk (percentDecode k), String.mk (percentDecode v))

/-- `url.searchParams.entries()`: split the raw query on `&`, skip empty
segments, decode each `key=value` pair, preserving order. -/
def parseQuery (search : String) : List (String × String) :=
  (splitChar '&' search.toList).filterMap
    (fun seg => if seg = [] then none else some (parseQuerySegment seg))

/-- The parts of a parsed absolute URL that the dispatcher reads. -/
structure URLParts where
  pathname : String
  search : String
  deriving DecidableEq, Repr

/-- Model of `new URL(s)` for the origin-form http URLs the pipeline
handles: scheme letters, `://`, a nonempty host, then pathname, `?query`,
`#fragment`.  The pathname is kept verbatim (the WHATWG parser does not
percent-decode it); a string with no scheme or an empty host fails to
parse, which in the dispatcher surfaces as a 400. -/
def parseURL (s : String) : Option URLParts :=
  let cs := s.toList
  let scheme := cs.takeWhile (fun c => c != ':')
  match cs.drop scheme.length with
  | ':' :: '/' :: '/' :: r =>
    if scheme ≠ [] ∧ scheme.all Char.isAlpha then
      let host := r.takeWhile (fun c => c != '/' && c != '?' && c != '#')
      if host = [] then none
      else
        let after := r.drop host.length
        let beforeFrag := after.takeWhile (fun c => c != '#')
        let path := beforeFrag.takeWhile (fun c => c != '?')
        let query := (beforeFrag.drop path.length).drop 1
        some ⟨if path = [] then "/" else String.mk path, String.mk query⟩
    else none
  | _ => none

/-- JavaScript values that reach the response body in this pipeline.
`vNull` is the JS `null` (note `typeof null` is the string `object`). -/
inductive JsValue where
  | vNull : JsValue
  | vStr (s : String) : JsValue
  | vObj (fields : List (String × String)) : JsValue
  | vBuf (bytes : List Nat) : JsValue
  deriving DecidableEq, Repr

/-- Minimal model of `JSON.stringify` for the values above. -/
def jsonStringify : JsValue → String
  | JsValue.vNull => "null"
  | JsValue.vStr s => "\"" ++ s ++ "\""
  | JsValue.vObj fields =>
    "\x7b" ++ (fields.map (fun p => "\"" ++ p.1 ++ "\":\"" ++ p.2 ++ "\"")).foldl
      (fun acc f => if acc = "" then f else acc ++ "," ++ f) "" ++ "\x7d"
  | JsValue.vBuf _ => "\x7b\x7d"

/-- The mutable state of `ResponseHandler` (`src/handler/res/resHandler.js`):
`this.statusCode = 200; this.headers = new Headers(); this.body = null;
this.finished = false`.  Headers are modelled as an association list with
the case-insensitive `Headers.set` semantics (names lowercased). -/
structure ResponseState where
  statusCode : Nat
  headers : List (String × String)
  body : JsValue
  finished : Bool
  deriving DecidableEq, Repr

/-- `new ResponseHandler()`. -/
def ResponseState.init : ResponseState :=
  ⟨200, [], JsValue.vNull, false⟩

/-- The wire-level object built by `new Response(body, {status, headers})`. -/
structure WireResponse where
  status : Nat
  headers : List (String × String)
  body : JsValue
  deriving DecidableEq, Repr

/-- `ResponseHandler.status(code)`: accept 100..599, otherwise log and
substitute 500. -/
def ResponseState.status (r : ResponseState) (code : Nat) : ResponseState :=
  if 100 ≤ code ∧ code ≤ 599 then { r with statusCode := code }
  else { r with statusCode := 500 }

/-- `this.headers.set(name, value)`: header names are case-insensitive,
`Headers` normalizes them to lowercase; last write per name wins. -/
def ResponseState.headerSet (r : ResponseState) (name value : String) : ResponseState :=
  { r with headers := objSet r.headers (strToLower name) value }

/-- `ResponseHandler.header(headersObject)`: merge every entry via
`headers.set`. -/
def ResponseState.headerMap (r : ResponseState) (hs : List (String × String)) : ResponseState :=
  hs.foldl (fun acc kv => acc.headerSet kv.1 kv.2) r

/-- `ResponseHandler.setContentType(body)`: strings are sniffed for HTML,
anything of JS type `object` that is not a buffer (including `null`)
counts as JSON, buffers are octet streams. -/
def ResponseState.setContentType (r : ResponseState) (body : JsValue) : ResponseState :=
  match body with
  | JsValue.vStr s =>
    let t := strTrim s
    if strStartsWith t "<" ∧ strEndsWith t ">" then r.headerSet "Content-Type" "text/html"
    else r.headerSet "Content-Type" "text/plain"
  | JsValue.vNull => r.headerSet "Content-Type" "application/json"
  | JsValue.vObj _ => r.headerSet "Content-Type" "application/json"
  | JsValue.vBuf _ => r.headerSet "Content-Type" "application/octet-stream"

/-- `ResponseHandler.formatBody(body)`: JSON-stringify objects (and `null`,
whose JS type is `object`), pass everything else through. -/
def formatBody : JsValue → JsValue
  | JsValue.vNull => JsValue.vStr (jsonStringify JsValue.vNull)
  | JsValue.vObj fields => JsValue.vStr (jsonStringify (JsValue.vObj fields))
  | JsValue.vStr s => JsValue.vStr s
  | JsValue.vBuf bs => JsValue.vBuf bs

/-- `ResponseHandler.end()`: set `finished` and build the wire response
from the current state. -/
def ResponseState.end (r : ResponseState) : WireResponse × ResponseState :=
  let r2 := { r with finished := true }
  (⟨r2.statusCode, r2.headers, r2.body⟩, r2)

/-- `ResponseHandler.send(body, status, headers)`: set status, merge the
extra headers, sniff the content type, format the body, then `end()`.
(The surrounding try/catch only fires on exceptions from these steps,
which the pure model cannot raise.) -/
def ResponseState.send (r : ResponseState) (body : JsValue) (status : Nat)
    (hdrs : List (String × String)) : WireResponse × ResponseState :=
  let r1 := r.status status
  let r2 := r1.headerMap hdrs
  let r3 := r2.setContentType body
  let r4 := { r3 with body := formatBody body }
  r4.end

/-- `ResponseHandler.json(data, status, headers)`: set the JSON content
type, then delegate to `send(JSON.stringify(data), status, headers)`
(whose own content-type sniffing then overwrites the header again,
faithfully to the source). -/
def ResponseState.json (r : ResponseState) (data : JsValue) (status : Nat)
    (hdrs : List (String × String)) : WireResponse × ResponseState :=
  let r1 := r.headerSet "Content-Type" "application/json"
  r1.send (JsValue.vStr (jsonStringify data)) status hdrs

/-- One token of the regex built by `RoutesHandler._convertPathToRegex`:
a literal character, a capturing `([^/]+)` group produced from `:name`,
or the non-capturing `.*` produced from a bare `*`. -/
inductive RouteToken where
  | lit (c : Char) : RouteToken
  | param (key : String) : RouteToken
  | wildcard : RouteToken
  deriving DecidableEq, Repr

/-- `_convertPathToRegex`: the first global replace turns each `:` plus a
maximal nonempty run of non-`/` characters into a capturing `([^/]+)`
group, recording the run as a key; the second replace turns every
remaining `*` into `.*`; all other characters stand for themselves.
Returns the token sequence (anchored `^...$` by `tokMatch` below) and the
ordered key list. -/
def compileCharsAux : Nat → List Char → List RouteToken × List String
  | 0, _ => ([], [])
  | fuel + 1, cs =>
    match cs with
    | [] => ([], [])
    | ':' :: rest =>
      let run := rest.takeWhile (fun c => c != '/')
      if run = [] then
        let p := compileCharsAux fuel rest
        (RouteToken.lit ':' :: p.1, p.2)
      else
        let p := compileCharsAux fuel (rest.drop run.length)
        (RouteToken.param (String.mk run) :: p.1, String.mk run :: p.2)
    | '*' :: rest =>
      let p := compileCharsAux fuel rest
      (RouteToken.wildcard :: p.1, p.2)
    | c :: rest =>
      let p := compileCharsAux fuel rest
      (RouteToken.lit c :: p.1, p.2)

/-- Entry point of the scan: each step consumes at least one character,
so the input length is enough fuel. -/
def compileChars (cs : List Char) : List RouteToken × List String :=
  compileCharsAux cs.length cs

/-- `_convertPathToRegex(path)` on a path string. -/
def convertPathToRegex (path : String) : List RouteToken × List String :=
  compileChars path.toList

/-- Backtracking search for a `([^/]+)` group: try group lengths from `n`
down to 1 (greedy, as the regex engine does), succeeding on the first
length whose remainder is accepted by the continuation. -/
def tryParam (next : List Char → Option (List String)) (cs : List Char) :
    Nat → Option (List String)
  | 0 => none
  | n + 1 =>
    match next (cs.drop (n + 1)) with
    | some gs => some (String.mk (cs.take (n + 1)) :: gs)
    | none => tryParam next cs n

/-- Backtracking search for `.*`: try consuming `n` characters down to 0
(greedy), succeeding on the first remainder the continuation accepts. -/
def tryWild (next : List Char → Option (List String)) (cs : List Char) :
    Nat → Option (List String)
  | 0 => next cs
  | n + 1 =>
    match next (cs.drop (n + 1)) with
    | some gs => some gs
    | none => tryWild next cs n

/-- Anchored matching of the compiled token sequence against a path,
returning the list of captured groups on success — the semantics of
`path.match(route.regex)` for the regexes `_convertPathToRegex` builds
(literal characters, greedy `([^/]+)` groups, greedy `.*`). -/
def tokMatch : List RouteToken → List Char → Option (List String)
  | [], cs => if cs = [] then some [] else none
  | RouteToken.lit c :: ts, cs =>
    match cs with
    | [] => none
    | d :: ds => if d = c then tokMatch ts ds else none
  | RouteToken.param _ :: ts, cs =>
    tryParam (fun rest => tokMatch ts rest) cs (cs.takeWhile (fun c => c != '/')).length
  | RouteToken.wildcard :: ts, cs =>
    tryWild (fun rest => tokMatch ts rest) cs cs.length

/-- `route.regex.test(path)`. -/
def routeTest (tokens : List RouteToken) (path : String) : Bool :=
  (tokMatch tokens path.toList).isSome

/-- A registered route `{regex, keys, handler}`; the handler payload is a
type parameter so the matching layer is independent of the handler
signature. -/
structure Route (H : Type) where
  regex : List RouteToken
  keys : List String
  handler : H

/-- The `RoutesHandler.routes` object: one ordered list per supported
HTTP method. -/
structure RoutesTable (H : Type) where
  GET : List (Route H) := []
  POST : List (Route H) := []
  PUT : List (Route H) := []
  DELETE : List (Route H) := []
  PATCH : List (Route H) := []
  HEAD : List (Route H) := []
  OPTIONS : List (Route H) := []

/-- The empty table built by the `RoutesHandler` constructor. -/
def RoutesTable.init (H : Type) : RoutesTable H := {}

/-- `routes.routes[method]`: `some` for the seven keys of the table,
`none` (JS `undefined`) for anything else. -/
def RoutesTable.lookup (t : RoutesTable H) (method : String) : Option (List (Route H)) :=
  if method = "GET" then some t.GET
  else if method = "POST" then some t.POST
  else if method = "PUT" then some t.PUT
  else if method = "DELETE" then some t.DELETE
  else if method = "PATCH" then some t.PATCH
  else if method = "HEAD" then some t.HEAD
  else if method = "OPTIONS" then some t.OPTIONS
  else none

/-- Replace the route list stored under a supported method key. -/
def RoutesTable.setMethod (t : RoutesTable H) (method : String) (rs : List (Route H)) :
    RoutesTable H :=
  if method = "GET" then { t with GET := rs }
  else if method = "POST" then { t with POST := rs }
  else if method = "PUT" then { t with PUT := rs }
  else if method = "DELETE" then { t with DELETE := rs }
  else if method = "PATCH" then { t with PATCH := rs }
  else if method = "HEAD" then { t with HEAD := rs }
  else if method = "OPTIONS" then { t with OPTIONS := rs }
  else t

/-- `RoutesHandler.route(method, path, handler)`: uppercase the method and
require it to be supported, require the path to be a string starting with
`/` (handlers are always functions in the model), compile the path and
push the route; on any validation failure the error is logged and the
route is simply not added. -/
def RoutesTable.route (t : RoutesTable H) (method path : String) (handler : H) :
    RoutesTable H :=
  let m := strToUpper method
  match t.lookup m with
  | none => t
  | some rs =>
    if strStartsWith path "/" then
      let c := convertPathToRegex path
      t.setMethod m (rs ++ [⟨c.1, c.2, handler⟩])
    else t

/-- `routes.routes[method].find((r) => r.regex.test(pathname))` — also the
body of `RoutesHandler._matchRoute`. -/
def matchRoute (rs : List (Route H)) (path : String) : Option (Route H) :=
  rs.find? (fun r => routeTest r.regex path)

/-- The inbound request object as the dispatcher reads it: `req.method`
and `req.url` (an absent method is modelled as the empty string, which is
falsy in JS exactly like `undefined`). -/
structure Request where
  method : String
  url : String

/-- The `option` object built by the dispatcher and passed to the route
handler: `{dynamic, query}`. -/
structure Ctx where
  dynamic : List (String × String)
  query : List (String × String)

/-- Outcome of awaiting a user-supplied middleware or handler: it either
completes normally or throws, in both cases having possibly mutated the
response it was given. -/
inductive CallOutcome where
  | ok (r : ResponseState) : CallOutcome
  | thrown (r : ResponseState) (msg : String) : CallOutcome

/-- A middleware function `(req, res) => ...`. -/
def Middleware : Type := Request → ResponseState → CallOutcome

/-- A route handler `(req, res, option) => ...`. -/
def Handler : Type := Request → ResponseState → Ctx → CallOutcome

/-- The truthy values `applyMiddlewares` can resolve with: the `res`
object itself (when a middleware finished the response) or the wire
`Response` built by the error-path `res.send(...)`; `none` models the
`null` of the pass-through case. -/
inductive MwReturn where
  | theRes : MwReturn
  | wire (w : WireResponse) : MwReturn

/-- `MiddlewareHandler.applyMiddlewares(req, res)`: run each middleware in
registration order; after each, if `res.finished` is set, resolve with
`res`; if one throws, log and resolve with `res.send("Internal Server
Error", 500)`; if all pass, resolve with `null`.  The result pairs the
resolved value with the final state of the shared `res`. -/
def applyMiddlewares : List Middleware → Request → ResponseState →
    Option MwReturn × ResponseState
  | [], _, r => (none, r)
  | m :: ms, req, r =>
    match m req r with
    | CallOutcome.ok r1 =>
      if r1.finished then (some MwReturn.theRes, r1)
      else applyMiddlewares ms req r1
    | CallOutcome.thrown r1 _ =>
      let s := r1.send (JsValue.vStr "Internal Server Error") 500 []
      (some (MwReturn.wire s.1), s.2)

/-- Lines 81-90 of `reqHandler.js`: `route.keys.forEach((key, index) =>
dynamicparams[key] = match[index + 1])` — successive property assignments
of the capture groups to the keys. -/
def dynamicParamsFor (keys : List String) (groups : List String) :
    List (String × String) :=
  fromEntries (keys.zip groups)

/-- What a dispatch leaves behind: the JS return value of the async
`RequestHandler` (`some` wire response, or `none` for the paths that end
in a bare `return;` discarding the response object) and the final state
of the shared `res`. -/
structure DispatchResult where
  retVal : Option WireResponse
  res : ResponseState

/-- `RequestHandler(req, routes, middleware)` from `reqHandler.js`,
operating on the `res` it picks up from the system singleton.

Faithfulness notes, keyed to the source lines:
* line 41 `if (responseFromMiddleware && res.finishState())`: no
  `finishState` method exists on `ResponseHandler`, so whenever
  `responseFromMiddleware` is truthy this call raises a `TypeError`,
  which the enclosing try/catch turns into
  `res.send("Internal Server Error", 500)` (line 111);
* line 49 `new URL(req.url)` is `parseURL`; failure sends 400 and
  returns `undefined`;
* line 64 `typeof routes.routes[method] !== "object"` throws for any
  method that is not one of the seven table keys (the lookup yields
  `undefined`), again landing in the catch that sends 500;
* lines 69-79: first matching route or a 404 (`res.send` discarded,
  `return;`);
* lines 99-104: a throwing handler is caught and answered with 500;
* line 107 `res.end(); return;`: the normal path finalizes the response
  but returns `undefined`. -/
def RequestHandler (routes : RoutesTable Handler) (mws : List Middleware)
    (req : Request) (res0 : ResponseState) : DispatchResult :=
  match applyMiddlewares mws req res0 with
  | (some _, r1) =>
    let s := r1.send (JsValue.vStr "Internal Server Error") 500 []
    ⟨some s.1, s.2⟩
  | (none, r1) =>
    let method := if req.method = "" then "GET" else req.method
    match parseURL req.url with
    | none =>
      let s := r1.send (JsValue.vStr "Bad Request") 400 []
      ⟨none, s.2⟩
    | some u =>
      let queryParams := fromEntries (parseQuery u.search)
      match routes.lookup method with
      | none =>
        let s := r1.send (JsValue.vStr "Internal Server Error") 500 []
        ⟨some s.1, s.2⟩
      | some rs =>
        match matchRoute rs u.pathname with
        | none =>
          let s := r1.send (JsValue.vStr "Not Found") 404 []
          ⟨none, s.2⟩
        | some rt =>
          match tokMatch rt.regex u.pathname.toList with
          | none =>
            let s := r1.send (JsValue.vStr "Not Found") 404 []
            ⟨none, s.2⟩
          | some groups =>
            let option : Ctx := ⟨dynamicParamsFor rt.keys groups, queryParams⟩
            match rt.handler req r1 option with
            | CallOutcome.ok r2 =>
              ⟨none, (r2.end).2⟩
            | CallOutcome.thrown r2 _ =>
              let s := r2.send (JsValue.vStr "Internal Server Error") 500 []
              ⟨some s.1, s.2⟩

/-- The `System` singleton state (`export default new System()`): the
constructor runs once per process and allocates `this.res = new
ResponseHandler()` once; every `RequestHandler` invocation then reads
`const res = system.res`. -/
structure SystemState where
  res : ResponseState

/-- `new System()`. -/
def SystemState.init : SystemState := ⟨ResponseState.init⟩

/-- One inbound request handled through the system singleton: the
dispatcher mutates `system.res` in place, so the state it leaves behind
is the state the next dispatch starts from. -/
def systemDispatch (sys : SystemState) (routes : RoutesTable Handler)
    (mws : List Middleware) (req : Request) : SystemState × DispatchResult :=
  let d := RequestHandler routes mws req sys.res
  (⟨d.res⟩, d)

/-- JavaScript property read `obj[k]` on the association-list model:
first matching key (keys are unique by construction of `objSet`). -/
def getProp : List (String × String) → String → Option String
  | [], _ => none
  | (a, v) :: rest, k => if a = k then some v else getProp rest k

/-! Helper lemmas about the response-state operations. -/

theorem headerSet_finished (r : ResponseState) (n v : String) :
    (r.headerSet n v).finished = r.finished := rfl

theorem headerMap_finished (r : ResponseState) (hs : List (String × String)) :
    (r.headerMap hs).finished = r.finished := by
  induction hs generalizing r with
  | nil => rfl
  | cons kv hs ih => simpa [ResponseState.headerMap] using ih (r.headerSet kv.1 kv.2)

theorem status_finished (r : ResponseState) (code : Nat) :
    (r.status code).finished = r.finished := by
  unfold ResponseState.status
  split <;> rfl

theorem send_snd_finished (r : ResponseState) (b : JsValue) (s : Nat)
    (hs : List (String × String)) : ((r.send b s hs).2).finished = true := rfl

theorem json_snd_finished (r : ResponseState) (d : JsValue) (s : Nat)
    (hs : List (String × String)) : ((r.json d s hs).2).finished = true := rfl

theorem end_snd_finished (r : ResponseState) : ((r.end).2).finished = true := rfl

theorem headerMap_statusCode (r : ResponseState) (hs : List (String × String)) :
    (r.headerMap hs).statusCode = r.statusCode := by
  induction hs generalizing r with
  | nil => rfl
  | cons kv hs ih => simpa [ResponseState.headerMap] using ih (r.headerSet kv.1 kv.2)

theorem setContentType_statusCode (r : ResponseState) (b : JsValue) :
    (r.setContentType b).statusCode = r.statusCode := by
  cases b <;> simp only [ResponseState.setContentType] <;> first
    | rfl
    | (split <;> rfl)

theorem send_snd_statusCode (r : ResponseState) (b : JsValue) (s : Nat)
    (hs : List (String × String)) (h : 100 ≤ s ∧ s ≤ 599) :
    ((r.send b s hs).2).statusCode = s := by
  show ((((r.status s).headerMap hs).setContentType b).statusCode) = s
  rw [setContentType_statusCode, headerMap_statusCode]
  simp [ResponseState.status, h]

theorem send_fst_status (r : ResponseState) (b : JsValue) (s : Nat)
    (hs : List (String × String)) (h : 100 ≤ s ∧ s ≤ 599) :
    ((r.send b s hs).1).status = s := by
  show ((((r.status s).headerMap hs).setContentType b).statusCode) = s
  rw [setContentType_statusCode, headerMap_statusCode]
  simp [ResponseState.status, h]

theorem send_snd_body (r : ResponseState) (b : JsValue) (s : Nat)
    (hs : List (String × String)) : ((r.send b s hs).2).body = formatBody b := rfl

/-- C1, counterexample: a response finished by `send("ok", 200)` has
`finished = true`, yet a subsequent `status(403)` call still changes the
observable `statusCode` (no mutator of `ResponseHandler` consults the
`finished` flag), so the mutators are not no-ops after the finished
transition. -/
theorem c1_mutator_after_finished_counterexample :
    ((ResponseState.init.send (JsValue.vStr "ok") 200 []).2).finished = true ∧
    (((ResponseState.init.send (JsValue.vStr "ok") 200 []).2).status 403).statusCode = 403 ∧
    ((ResponseState.init.send (JsValue.vStr "ok") 200 []).2).statusCode = 200 := by
  decide

/-- C1, amended: after `finished` becomes true, `status`, `header` (both
forms), `send` and `json` still mutate the observable status, headers and
body, but none of them ever resets `finished` — the finished transition
is irreversible (a finished response is never resurrected), which is the
part of the invariant the code actually maintains. -/
theorem c1_finished_never_reset (r : ResponseState) (code : Nat) (n v : String)
    (hs : List (String × String)) (b : JsValue) (s : Nat) (d : JsValue) (s2 : Nat)
    (hs2 : List (String × String)) (h : r.finished = true) :
    (r.status code).finished = true ∧
    (r.headerSet n v).finished = true ∧
    (r.headerMap hs).finished = true ∧
    ((r.send b s hs).2).finished = true ∧
    ((r.json d s2 hs2).2).finished = true := by
  refine ⟨?_, ?_, ?_, ?_, ?_⟩
  · rw [status_finished, h]
  · rw [headerSet_finished, h]
  · rw [headerMap_finished, h]
  · exact send_snd_finished ..
  · exact json_snd_finished ..

/-- C1, witness for the amended theorem at a concrete finished response. -/
theorem c1_finished_never_reset_witness :
    (((ResponseState.init.send (JsValue.vStr "ok") 200 []).2).status 403).finished = true ∧
    ((((ResponseState.init.send (JsValue.vStr "ok") 200 []).2).send (JsValue.vStr "x") 201 []).2).finished = true := by
  have h := c1_finished_never_reset ((ResponseState.init.send (JsValue.vStr "ok") 200 []).2)
    403 "a" "b" [] (JsValue.vStr "x") 201 JsValue.vNull 202 [] (by decide)
  exact ⟨h.1, h.2.2.2.1⟩

/-- Handler for `GET /a` in the C2 scenario: sends a body. -/
def c2HandlerA : Handler := fun _ r _ =>
  CallOutcome.ok (r.send (JsValue.vStr "from-a") 200 []).2

/-- Handler for `GET /b` in the C2 scenario: completes without touching
the response. -/
def c2HandlerB : Handler := fun _ r _ => CallOutcome.ok r

/-- Route table for the C2 scenario. -/
def c2Table : RoutesTable Handler :=
  ((RoutesTable.init Handler).route "GET" "/a" c2HandlerA).route "GET" "/b" c2HandlerB

/-- C2, failing behaviour: the dispatcher does not operate on a freshly
allocated Response State.  `System`'s constructor allocates `this.res =
new ResponseHandler()` once per process and `RequestHandler` reads `const
res = system.res`, so the second dispatch starts from the first
dispatch's terminal state — its `finished` flag is already true and the
first request's body is still in place — and `GET /b`, whose handler
never writes a body, is answered with the body `"from-a"` left over from
`GET /a`.  A fresh Response State (as the claim requires) has
`finished = false` and body `null`. -/
theorem c2_response_state_reused :
    ((systemDispatch SystemState.init c2Table [] ⟨"GET", "http://h/a"⟩).1).res.finished = true ∧
    ((systemDispatch SystemState.init c2Table [] ⟨"GET", "http://h/a"⟩).1).res.body =
      JsValue.vStr "from-a" ∧
    ((systemDispatch ((systemDispatch SystemState.init c2Table [] ⟨"GET", "http://h/a"⟩).1)
        c2Table [] ⟨"GET", "http://h/b"⟩).2).res.body = JsValue.vStr "from-a" ∧
    ResponseState.init.finished = false ∧ ResponseState.init.body = JsValue.vNull := by
  decide

/-- C3, counterexample: on the no-match path the dispatcher finalizes the
Response State with a 404 but discards the value of `res.send` and
executes a bare `return;`, so `dispatch` resolves with `undefined` — it
does not return a wire-level response object, although a terminal
response state was produced. -/
theorem c3_dispatch_return_counterexample :
    (RequestHandler (RoutesTable.init Handler) [] ⟨"GET", "http://h/missing"⟩
        ResponseState.init).retVal = none ∧
    (RequestHandler (RoutesTable.init Handler) [] ⟨"GET", "http://h/missing"⟩
        ResponseState.init).res.finished = true ∧
    (RequestHandler (RoutesTable.init Handler) [] ⟨"GET", "http://h/missing"⟩
        ResponseState.init).res.statusCode = 404 := by
  decide

/-- C3, amended: every dispatch drives the (shared) Response State to a
terminal `finished = true` state, regardless of which step
short-circuits — middleware termination, URL parse failure, unsupported
method, no-match 404, handler error, or normal completion; however, the
wire-level `Response` object is the JS return value of `dispatch` only on
the error paths that end in `return res.send(...)`, while the bad-URL,
no-match and normal-completion paths finalize the state and return
`undefined`. -/
theorem c3_always_finishes (t : RoutesTable Handler) (mws : List Middleware)
    (req : Request) (r0 : ResponseState) :
    ((RequestHandler t mws req r0).res).finished = true := by
  unfold RequestHandler
  repeat' (first | rfl | split | dsimp only)

/-- Middleware A of the C4 scenario: `res.send("Access Denied", 403)`. -/
def c4MwA : Middleware := fun _ r =>
  CallOutcome.ok (r.send (JsValue.vStr "Access Denied") 403 []).2

/-- Middleware B of the C4 scenario: sets a header `X-B`. -/
def c4MwB : Middleware := fun _ r =>
  CallOutcome.ok (r.headerSet "X-B" "1")

/-- C4, failing behaviour: with middleware A sending 403 before middleware
B, the chain does halt after A (B never runs: its `x-b` header is absent,
and directly after the chain the response still carries A's 403), but the
dispatcher then evaluates `responseFromMiddleware && res.finishState()`;
`finishState` is not a method of `ResponseHandler`, the resulting
`TypeError` lands in the top-level catch, and the request is answered
with `res.send("Internal Server Error", 500)` — status 500 on the wire,
not the 403 the claim (and the intended `res.finished` check) would
give. -/
theorem c4_middleware_send_halts_chain :
    ((applyMiddlewares [c4MwA, c4MwB] ⟨"GET", "http://h/x"⟩ ResponseState.init).2).statusCode
      = 403 ∧
    (RequestHandler (RoutesTable.init Handler) [c4MwA, c4MwB] ⟨"GET", "http://h/x"⟩
        ResponseState.init).res.statusCode = 500 ∧
    getProp (RequestHandler (RoutesTable.init Handler) [c4MwA, c4MwB] ⟨"GET", "http://h/x"⟩
        ResponseState.init).res.headers "x-b" = none ∧
    getProp (RequestHandler (RoutesTable.init Handler) [c4MwA, c4MwB] ⟨"GET", "http://h/x"⟩
        ResponseState.init).res.headers "X-B" = none := by
  decide

/-- C5, helper: a prefix of the chain that passes through (resolves to
`null` without finishing the response) continues into the rest of the
chain from the state it produced. -/
theorem applyMiddlewares_append (pre : List Middleware) (rest : List Middleware)
    (req : Request) (r0 r1 : ResponseState)
    (h : applyMiddlewares pre req r0 = (none, r1)) :
    applyMiddlewares (pre ++ rest) req r0 = applyMiddlewares rest req r1 := by
  induction pre generalizing r0 with
  | nil =>
    simp only [applyMiddlewares] at h
    cases h
    rfl
  | cons m pre ih =>
    simp only [applyMiddlewares, List.cons_append] at h ⊢
    cases hm : m req r0 with
    | ok rA =>
      rw [hm] at h
      by_cases hf : rA.finished
      · simp [hf] at h
      · simp only [hf, if_neg, Bool.false_eq_true, if_false] at h ⊢
        exact ih rA h
    | thrown rA msg =>
      rw [hm] at h
      simp at h

/-- C5: if a middleware throws while the chain runs (after a prefix that
passed through), the chain catches it and resolves with
`res.send("Internal Server Error", 500)`: the response ends with status
500, the fixed generic body `"Internal Server Error"` (independent of the
thrown message, which is only logged), `finished = true`, and none of the
remaining middleware entries runs — the result does not depend on what
follows the throwing entry. -/
theorem c5_middleware_throw_caught (pre post : List Middleware) (mw : Middleware)
    (req : Request) (r0 r1 r2 : ResponseState) (msg : String)
    (hpre : applyMiddlewares pre req r0 = (none, r1))
    (hmw : mw req r1 = CallOutcome.thrown r2 msg) :
    applyMiddlewares (pre ++ mw :: post) req r0 = applyMiddlewares (pre ++ [mw]) req r0 ∧
    ((applyMiddlewares (pre ++ mw :: post) req r0).2).statusCode = 500 ∧
    ((applyMiddlewares (pre ++ mw :: post) req r0).2).body =
      JsValue.vStr "Internal Server Error" ∧
    ((applyMiddlewares (pre ++ mw :: post) req r0).2).finished = true ∧
    ∃ w, (applyMiddlewares (pre ++ mw :: post) req r0).1 = some (MwReturn.wire w) ∧
      w.status = 500 := by
  have hrun : applyMiddlewares (pre ++ mw :: post) req r0 =
      ((r2.send (JsValue.vStr "Internal Server Error") 500 []).1 |> MwReturn.wire |> some,
        (r2.send (JsValue.vStr "Internal Server Error") 500 []).2) := by
    rw [applyMiddlewares_append pre (mw :: post) req r0 r1 hpre]
    simp only [applyMiddlewares, hmw]
  have hrun1 : applyMiddlewares (pre ++ [mw]) req r0 =
      ((r2.send (JsValue.vStr "Internal Server Error") 500 []).1 |> MwReturn.wire |> some,
        (r2.send (JsValue.vStr "Internal Server Error") 500 []).2) := by
    rw [applyMiddlewares_append pre [mw] req r0 r1 hpre]
    simp only [applyMiddlewares, hmw]
  refine ⟨hrun.trans hrun1.symm, ?_, ?_, ?_, ?_⟩
  · rw [hrun]
    exact send_snd_statusCode r2 (JsValue.vStr "Internal Server Error") 500 [] (by omega)
  · rw [hrun]
    exact send_snd_body ..
  · rw [hrun]
    exact send_snd_finished ..
  · refine ⟨(r2.send (JsValue.vStr "Internal Server Error") 500 []).1, ?_, ?_⟩
    · rw [hrun]
    · exact send_fst_status r2 (JsValue.vStr "Internal Server Error") 500 [] (by omega)

/-- Pass-through middleware for the C5 witness. -/
def c5Pass : Middleware := fun _ r => CallOutcome.ok r

/-- Throwing middleware for the C5 witness. -/
def c5Throw : Middleware := fun _ r => CallOutcome.thrown r "boom"

/-- Header-setting middleware standing after the throwing one in the C5
witness chain. -/
def c5After : Middleware := fun _ r => CallOutcome.ok (r.headerSet "X-After" "1")

/-- C5, witness: the theorem applied to the concrete chain
`[c5Pass, c5Throw, c5After]` from a fresh response. -/
theorem c5_middleware_throw_caught_witness :
    applyMiddlewares ([c5Pass] ++ c5Throw :: [c5After]) ⟨"GET", "http://h/x"⟩
        ResponseState.init =
      applyMiddlewares ([c5Pass] ++ [c5Throw]) ⟨"GET", "http://h/x"⟩ ResponseState.init ∧
    ((applyMiddlewares ([c5Pass] ++ c5Throw :: [c5After]) ⟨"GET", "http://h/x"⟩
        ResponseState.init).2).statusCode = 500 ∧
    ((applyMiddlewares ([c5Pass] ++ c5Throw :: [c5After]) ⟨"GET", "http://h/x"⟩
        ResponseState.init).2).body = JsValue.vStr "Internal Server Error" := by
  have h := c5_middleware_throw_caught [c5Pass] [c5After] c5Throw ⟨"GET", "http://h/x"⟩
    ResponseState.init ResponseState.init ResponseState.init "boom" (by rfl) (by rfl)
  exact ⟨h.1, h.2.1, h.2.2.1⟩

/-- C6: `find` over the per-method route list returns the first-registered
route whose compiled matcher accepts the path — if the route at index `i`
matches and every earlier route does not, resolution returns exactly the
route at index `i`. -/
theorem c6_first_registered_wins {H : Type} (rs : List (Route H)) (path : String)
    (i : Nat) (hi : i < rs.length)
    (hmatch : routeTest (rs.get ⟨i, hi⟩).regex path = true)
    (hfirst : ∀ j (hj : j < i),
      routeTest (rs.get ⟨j, Nat.lt_trans hj hi⟩).regex path = false) :
    matchRoute rs path = some (rs.get ⟨i, hi⟩) := by
  induction rs generalizing i with
  | nil => exact absurd hi (by simp)
  | cons r rs ih =>
    cases i with
    | zero =>
      simp only [List.get] at hmatch
      simp [matchRoute, List.find?, hmatch]
    | succ i =>
      have h0 : routeTest r.regex path = false := hfirst 0 (Nat.succ_pos i)
      simp only [List.get] at hmatch ⊢
      simp only [matchRoute, List.find?, h0]
      exact ih i (Nat.lt_of_succ_lt_succ hi) hmatch
        (fun j hj => hfirst (j + 1) (Nat.succ_lt_succ hj))

/-- Routes table of the C6 witness: the literal `/users/new` registered
before the parametrized `/users/:id` (handlers tagged 1 and 2). -/
def c6Table : RoutesTable Nat :=
  ((RoutesTable.init Nat).route "GET" "/users/new" 1).route "GET" "/users/:id" 2

/-- C6, witness: in the concrete table both routes accept `/users/new`,
and resolution returns the first-registered literal route (handler 1). -/
theorem c6_first_registered_wins_witness :
    matchRoute c6Table.GET "/users/new" = some (c6Table.GET.get ⟨0, by decide⟩) ∧
    (c6Table.GET.get ⟨0, by decide⟩).handler = 1 ∧
    routeTest (c6Table.GET.get ⟨1, by decide⟩).regex "/users/new" = true := by
  refine ⟨?_, by decide, by decide⟩
  exact c6_first_registered_wins c6Table.GET "/users/new" 0 (by decide) (by decide)
    (fun j hj => absurd hj (Nat.not_lt_zero j))

/-- Handler of the C7 scenario: echoes the dynamic parameter `id` it was
given back as the response body, making the delivered parameter map
observable on the wire. -/
def c7Handler : Handler := fun _ r ctx =>
  CallOutcome.ok (r.send (JsValue.vStr ((getProp ctx.dynamic "id").getD "-")) 200 []).2

/-- Routes table of the C7 scenario: `/users/:id` registered for GET. -/
def c7Table : RoutesTable Handler :=
  (RoutesTable.init Handler).route "GET" "/users/:id" c7Handler

/-- C7: registering `/users/:id` and dispatching `GET /users/42` yields
the dynamic parameter map `{id: "42"}` and passes it to the handler: the
compiled pattern has key list `["id"]`, matching `/users/42` captures
`["42"]`, the `dynamicparams` object built from them is `[("id", "42")]`,
and the echo handler's response body is exactly the delivered value
`"42"`. -/
theorem c7_param_roundtrip :
    (convertPathToRegex "/users/:id").2 = ["id"] ∧
    tokMatch (convertPathToRegex "/users/:id").1 "/users/42".toList = some ["42"] ∧
    dynamicParamsFor (convertPathToRegex "/users/:id").2 ["42"] = [("id", "42")] ∧
    (RequestHandler c7Table [] ⟨"GET", "http://h/users/42"⟩ ResponseState.init).res.body =
      JsValue.vStr "42" := by
  decide

/-- C8: dispatching a request whose method is `"TRACE"` (not one of the
seven route-table keys) makes `typeof routes.routes[method]` the string
`undefined`, so the dispatcher throws and the top-level catch answers
`res.send("Internal Server Error", 500)`: the response status is 500 —
not 404 — and the 500 wire response is returned.  (The accompanying
`system.error` log call is outside the pure model.) -/
theorem c8_unsupported_method_500 (t : RoutesTable Handler) (mws : List Middleware)
    (req : Request) (r0 r1 : ResponseState) (u : URLParts)
    (hm : req.method = "TRACE")
    (hmw : applyMiddlewares mws req r0 = (none, r1))
    (hu : parseURL req.url = some u) :
    (RequestHandler t mws req r0).res.statusCode = 500 ∧
    (RequestHandler t mws req r0).res.statusCode ≠ 404 ∧
    ∃ w, (RequestHandler t mws req r0).retVal = some w ∧ w.status = 500 := by
  have hrun : RequestHandler t mws req r0 =
      ⟨some (r1.send (JsValue.vStr "Internal Server Error") 500 []).1,
        (r1.send (JsValue.vStr "Internal Server Error") 500 []).2⟩ := by
    unfold RequestHandler
    rw [hmw, hu]
    simp only [hm]
    rfl
  rw [hrun]
  refine ⟨?_, ?_, ?_⟩
  · exact send_snd_statusCode r1 (JsValue.vStr "Internal Server Error") 500 [] (by omega)
  · rw [send_snd_statusCode r1 (JsValue.vStr "Internal Server Error") 500 [] (by omega)]
    omega
  · exact ⟨(r1.send (JsValue.vStr "Internal Server Error") 500 []).1, rfl,
      send_fst_status r1 (JsValue.vStr "Internal Server Error") 500 [] (by omega)⟩

/-- C8, witness: the theorem applied to a concrete `TRACE` request against
the empty table with no middleware. -/
theorem c8_unsupported_method_500_witness :
    (RequestHandler (RoutesTable.init Handler) [] ⟨"TRACE", "http://h/x"⟩
        ResponseState.init).res.statusCode = 500 ∧
    (RequestHandler (RoutesTable.init Handler) [] ⟨"TRACE", "http://h/x"⟩
        ResponseState.init).res.statusCode ≠ 404 := by
  have h := c8_unsupported_method_500 (RoutesTable.init Handler) [] ⟨"TRACE", "http://h/x"⟩
    ResponseState.init ResponseState.init ⟨"/x", ""⟩ rfl rfl (by rfl)
  exact ⟨h.1, h.2.1⟩

/-- Handler of the C9 scenario: echoes the dynamic parameter `id` back as
the response body. -/
def c9Handler : Handler := fun _ r ctx =>
  CallOutcome.ok (r.send (JsValue.vStr ((getProp ctx.dynamic "id").getD "-")) 200 []).2

/-- Routes table of the C9 scenario: `/users/:id` registered for GET. -/
def c9Table : RoutesTable Handler :=
  (RoutesTable.init Handler).route "GET" "/users/:id" c9Handler

/-- C9, counterexample: dispatching `GET /users/a%20b` delivers the
parameter value `"a%20b"` to the handler — the raw pathname segment, not
its percent-decoding `"a b"`.  `url.pathname` keeps percent-escapes and
neither `_extractParams` nor the dispatcher ever decodes the captured
groups, so the delivered value differs from the decoded string the claim
requires. -/
theorem c9_params_not_decoded_counterexample :
    (RequestHandler c9Table [] ⟨"GET", "http://h/users/a%20b"⟩ ResponseState.init).res.body =
      JsValue.vStr "a%20b" ∧
    String.mk (percentDecode "a%20b".toList) = "a b" ∧
    JsValue.vStr "a%20b" ≠ JsValue.vStr "a b" := by
  decide

/-- C9, amended: the dynamic parameter values delivered to the handler
are the raw pathname captures, with percent-escapes intact — no decoding
is applied to path parameters (only query-string values go through
`URLSearchParams` decoding): resolving `/users/a%20b` against
`/users/:id` yields the map `[("id", "a%20b")]`, and that exact string
reaches the handler. -/
theorem c9_params_delivered_raw :
    tokMatch (convertPathToRegex "/users/:id").1 "/users/a%20b".toList =
      some ["a%20b"] ∧
    dynamicParamsFor (convertPathToRegex "/users/:id").2 ["a%20b"] = [("id", "a%20b")] ∧
    (RequestHandler c9Table [] ⟨"GET", "http://h/users/a%20b"⟩ ResponseState.init).res.body =
      JsValue.vStr "a%20b" := by
  decide

/-- C10, helper: property reads through a JS object map-update. -/
theorem getProp_map_set (o : List (String × String)) (a v k : String) :
    getProp (o.map (fun p => if p.1 = a then (a, v) else p)) k =
      if a = k then (getProp o a).map (fun _ => v) else getProp o k := by
  induction o with
  | nil => by_cases hak : a = k <;> simp [getProp, hak]
  | cons p o ih =>
    rw [List.map_cons]
    by_cases hpa : p.1 = a
    · rw [if_pos hpa]
      by_cases hak : a = k
      · simp [getProp, hak, hpa]
      · have hpk : ¬ p.1 = k := fun h => hak (hpa.symm.trans h)
        simp [getProp, hak, hpk, hpa, ih]
    · rw [if_neg hpa]
      by_cases hpk : p.1 = k
      · have hak : ¬ a = k := fun h => hpa (hpk.trans h.symm)
        simp [getProp, hpk, hak]
      · simp [getProp, hpk, hpa, ih]

theorem getProp_append (o o2 : List (String × String)) (k : String) :
    getProp (o ++ o2) k =
      match getProp o k with
      | some v => some v
      | none => getProp o2 k := by
  induction o with
  | nil => rfl
  | cons p o ih => by_cases hpk : p.1 = k <;> simp [getProp, hpk, ih]

theorem getProp_none_of_any_false (o : List (String × String)) (a : String)
    (h : ¬ (o.any (fun p => p.1 == a) = true)) : getProp o a = none := by
  induction o with
  | nil => rfl
  | cons p o ih =>
    simp only [List.any_cons, Bool.or_eq_true, beq_iff_eq, not_or] at h
    simp [getProp, h.1, ih (by simpa using h.2)]

theorem getProp_isSome_of_any (o : List (String × String)) (a : String)
    (h : o.any (fun p => p.1 == a) = true) : (getProp o a).isSome := by
  induction o with
  | nil => simp at h
  | cons p o ih =>
    by_cases hpa : p.1 = a
    · simp [getProp, hpa]
    · simp only [List.any_cons, Bool.or_eq_true, beq_iff_eq] at h
      rcases h with h | h
      · exact absurd h hpa
      · simpa [getProp, hpa] using ih h

theorem getProp_objSet (o : List (String × String)) (a v k : String) :
    getProp (objSet o a v) k = if a = k then some v else getProp o k := by
  unfold objSet
  split
  case isTrue hany =>
    rw [getProp_map_set]
    by_cases hak : a = k
    · have hs := getProp_isSome_of_any o a hany
      cases hoa : getProp o a with
      | none => rw [hoa] at hs; simp at hs
      | some x => simp [hak, hoa]
    · simp [hak]
  case isFalse hany =>
    rw [getProp_append]
    have hnone : getProp o a = none := getProp_none_of_any_false o a hany
    by_cases hak : a = k
    · rw [← hak, hnone]
      simp [getProp, hak]
    · cases hok : getProp o k with
      | none => simp [getProp, hak]
      | some x => simp [hak]

/-- C10, helper: reading a key from the object built by a sequence of
property assignments sees the value of the last entry for that key, and
falls back to the starting object otherwise. -/
theorem getProp_foldl_objSet (es : List (String × String))
    (acc : List (String × String)) (k : String) :
    getProp (es.foldl (fun o kv => objSet o kv.1 kv.2) acc) k =
      match es.reverse.find? (fun p => p.1 == k) with
      | some pr => some pr.2
      | none => getProp acc k := by
  induction es generalizing acc with
  | nil => rfl
  | cons e es ih =>
    rw [List.foldl_cons, ih, List.reverse_cons, List.find?_append]
    cases hfind : es.reverse.find? (fun p => p.1 == k) with
    | some pr => rfl
    | none =>
      rw [getProp_objSet]
      by_cases hek : e.1 = k
      · simp [List.find?, hek]
      · have hb : (e.1 == k) = false := beq_eq_false_iff_ne.mpr hek
        simp only [List.find?, hb, if_neg hek]
        rfl

/-- Handler of the C10 scenario: echoes the query parameter `a` it was
given back as the response body. -/
def c10Handler : Handler := fun _ r ctx =>
  CallOutcome.ok (r.send (JsValue.vStr ((getProp ctx.query "a").getD "-")) 200 []).2

/-- Routes table of the C10 scenario: a literal `/p` route for GET. -/
def c10Table : RoutesTable Handler :=
  (RoutesTable.init Handler).route "GET" "/p" c10Handler

/-- C10: the query map the dispatcher builds with
`Object.fromEntries(url.searchParams.entries())` holds, for every key,
exactly the (string) value of the last occurrence of that key in the
query string — repeated keys are never collected into an array — and
that map is what reaches the handler: dispatching
`GET /p?a=1&b=2&a=3` to a handler echoing `query.a` answers `"3"`. -/
theorem c10_last_query_key_wins :
    (∀ (u : URLParts) (k : String),
      getProp (fromEntries (parseQuery u.search)) k =
        match (parseQuery u.search).reverse.find? (fun p => p.1 == k) with
        | some pr => some pr.2
        | none => none) ∧
    (RequestHandler c10Table [] ⟨"GET", "http://h/p?a=1&b=2&a=3"⟩ ResponseState.init).res.body =
      JsValue.vStr "3" := by
  constructor
  · intro u k
    rw [fromEntries, getProp_foldl_objSet]
    cases (parseQuery u.search).reverse.find? (fun p => p.1 == k) with
    | some pr => rfl
    | none => rfl
  · decide

end Cyro

